import Mathlib

/-!
# Verification of the SAST demo Flask application

Shallow embedding of `src/app/app.py` (and its duplicate
`src/SAST/app/app.py`): an intentionally vulnerable Flask app with three
GET handlers (`/health`, `/hello`, `/user`), a lazy seed routine
`init_db`, and an ephemeral in-memory SQLite store reached through a
`get_db` accessor.

The SQL engine is modelled for the statement forms the program can issue:
the seed statements (`CREATE TABLE IF NOT EXISTS users (...)`,
`DELETE FROM users`, the `executemany` insert) and the interpolated
lookup query `SELECT * FROM users WHERE id = <raw string>`.  The WHERE
grammar covers integer literals, column references, `=`/`==`, `AND`,
`OR` and parentheses with SQLite's three-valued logic; `DROP TABLE users`
is modelled as well so that write statements exist in the model.
Characters outside this subset make the tokenizer fail, mirroring a
prepare-time SQLite error; as in Python's `sqlite3`, a statement followed
by a non-empty tail after `;` is rejected before anything executes.

`app/db.py` is imported by the application (`from .db import get_db`) but
is absent from the source tree, so the accessor is modelled from the
spec, see `get_db`.
-/

namespace SASTApp

/-- SQLite storage values relevant to the `users` table: NULL, INTEGER
and TEXT. -/
inductive SqlVal where
  | null
  | int (i : Int)
  | text (s : String)
deriving DecidableEq

/-- A row of the `users` table: `id INTEGER PRIMARY KEY, name TEXT`. -/
structure Row where
  id : Int
  name : String
deriving DecidableEq

/-- State of the in-memory store: the `users` table is absent (`none`)
or holds a list of rows in insertion order. -/
structure DbState where
  users : Option (List Row)
deriving DecidableEq

/-- SQL tokens of the modelled subset. -/
inductive Tok where
  | int (n : Int)
  | ident (s : String)
  | eq
  | lparen
  | rparen
  | comma
  | semi
  | star
deriving DecidableEq

def identChar (c : Char) : Bool :=
  c.isAlpha || c.isDigit || c = '_'

def digitsToNat (cs : List Char) : Nat :=
  cs.foldl (fun a c => a * 10 + (c.toNat - 48)) 0

/-- Tokenizer for the modelled SQL subset, fuelled by the input length.
A character outside the subset is a prepare-time error, as in SQLite. -/
def tokenizeAux : Nat → List Char → Except String (List Tok)
  | 0, _ => .error "SQL tokenizer: out of fuel"
  | _ + 1, [] => .ok []
  | fuel + 1, c :: cs =>
    if c = ' ' || c = '\t' || c = '\n' || c = '\r' then
      tokenizeAux fuel cs
    else if c.isDigit then
      let ds := (c :: cs).takeWhile Char.isDigit
      let rest := (c :: cs).dropWhile Char.isDigit
      do
        let ts ← tokenizeAux fuel rest
        .ok (Tok.int (Int.ofNat (digitsToNat ds)) :: ts)
    else if c.isAlpha || c = '_' then
      let ds := (c :: cs).takeWhile identChar
      let rest := (c :: cs).dropWhile identChar
      do
        let ts ← tokenizeAux fuel rest
        .ok (Tok.ident (String.mk ds) :: ts)
    else if c = '=' then
      match cs with
      | d :: cs2 =>
        if d = '=' then do
          let ts ← tokenizeAux fuel cs2
          .ok (Tok.eq :: ts)
        else do
          let ts ← tokenizeAux fuel cs
          .ok (Tok.eq :: ts)
      | [] => .ok [Tok.eq]
    else
      let one? : Option Tok :=
        if c = '(' then some Tok.lparen
        else if c = ')' then some Tok.rparen
        else if c = ',' then some Tok.comma
        else if c = ';' then some Tok.semi
        else if c = '*' then some Tok.star
        else none
      match one? with
      | some t => do
          let ts ← tokenizeAux fuel cs
          .ok (t :: ts)
      | none => .error ("unrecognized token: " ++ String.mk [c])

def tokenize (s : String) : Except String (List Tok) :=
  tokenizeAux (s.length + 1) s.data

/-- WHERE-clause expressions of the modelled subset. -/
inductive SqlExpr where
  | lit (v : SqlVal)
  | col (name : String)
  | eqE (a b : SqlExpr)
  | andE (a b : SqlExpr)
  | orE (a b : SqlExpr)
deriving DecidableEq

/-- ASCII uppercase of one character, by code point. -/
def upChar (c : Char) : Char :=
  if 97 ≤ c.toNat ∧ c.toNat ≤ 122 then Char.ofNat (c.toNat - 32) else c

/-- ASCII uppercase of a string (SQL keywords and identifiers are
case-insensitive). -/
def upStr (s : String) : String := String.mk (s.data.map upChar)

def isKw (s kw : String) : Bool := upStr s = kw

mutual

/-- Atom: integer literal, column reference or parenthesised expression.
Reserved words `OR`/`AND` are not column references. -/
def parseAtom : Nat → List Tok → Option (SqlExpr × List Tok)
  | 0, _ => none
  | _ + 1, Tok.int n :: ts => some (SqlExpr.lit (SqlVal.int n), ts)
  | _ + 1, Tok.ident s :: ts =>
    if isKw s "OR" || isKw s "AND" then none
    else some (SqlExpr.col s, ts)
  | fuel + 1, Tok.lparen :: ts =>
    match parseOrE fuel ts with
    | some (e, Tok.rparen :: ts2) => some (e, ts2)
    | _ => none
  | _ + 1, _ => none

/-- `=` chains, left-associative as in SQLite. -/
def parseCmp : Nat → List Tok → Option (SqlExpr × List Tok)
  | 0, _ => none
  | fuel + 1, ts =>
    match parseAtom fuel ts with
    | some (a, ts2) => parseCmpRest fuel a ts2
    | none => none

def parseCmpRest : Nat → SqlExpr → List Tok → Option (SqlExpr × List Tok)
  | 0, _, _ => none
  | fuel + 1, acc, Tok.eq :: ts =>
    match parseAtom fuel ts with
    | some (b, ts2) => parseCmpRest fuel (SqlExpr.eqE acc b) ts2
    | none => none
  | _ + 1, acc, ts => some (acc, ts)

/-- `AND` chains, binding tighter than `OR`. -/
def parseAndE : Nat → List Tok → Option (SqlExpr × List Tok)
  | 0, _ => none
  | fuel + 1, ts =>
    match parseCmp fuel ts with
    | some (a, ts2) => parseAndRest fuel a ts2
    | none => none

def parseAndRest : Nat → SqlExpr → List Tok → Option (SqlExpr × List Tok)
  | 0, _, _ => none
  | fuel + 1, acc, Tok.ident s :: ts =>
    if isKw s "AND" then
      match parseCmp fuel ts with
      | some (b, ts2) => parseAndRest fuel (SqlExpr.andE acc b) ts2
      | none => none
    else some (acc, Tok.ident s :: ts)
  | _ + 1, acc, ts => some (acc, ts)

/-- `OR` chains, the loosest binding of the subset. -/
def parseOrE : Nat → List Tok → Option (SqlExpr × List Tok)
  | 0, _ => none
  | fuel + 1, ts =>
    match parseAndE fuel ts with
    | some (a, ts2) => parseOrRest fuel a ts2
    | none => none

def parseOrRest : Nat → SqlExpr → List Tok → Option (SqlExpr × List Tok)
  | 0, _, _ => none
  | fuel + 1, acc, Tok.ident s :: ts =>
    if isKw s "OR" then
      match parseAndE fuel ts with
      | some (b, ts2) => parseOrRest fuel (SqlExpr.orE acc b) ts2
      | none => none
    else some (acc, Tok.ident s :: ts)
  | _ + 1, acc, ts => some (acc, ts)

end

/-- Parse a full WHERE expression: all tokens must be consumed. -/
def parseWhere (ts : List Tok) : Option SqlExpr :=
  match parseOrE (ts.length * 4 + 8) ts with
  | some (e, []) => some e
  | _ => none

/-- SQLite numeric interpretation of a TEXT value in a boolean context:
optional sign followed by leading digits, `0` otherwise. -/
def textToInt (s : String) : Int :=
  match s.data with
  | c :: cs =>
    if c = '-' then -(Int.ofNat (digitsToNat (cs.takeWhile Char.isDigit)))
    else if c = '+' then Int.ofNat (digitsToNat (cs.takeWhile Char.isDigit))
    else Int.ofNat (digitsToNat ((c :: cs).takeWhile Char.isDigit))
  | [] => 0

/-- Boolean interpretation of a value: NULL is unknown (`none`); an
INTEGER is true when non-zero; a TEXT is cast to a number first. -/
def toBool3 : SqlVal → Option Bool
  | SqlVal.null => none
  | SqlVal.int i => some (i ≠ 0)
  | SqlVal.text s => some (textToInt s ≠ 0)

def ofBool3 : Option Bool → SqlVal
  | none => SqlVal.null
  | some b => SqlVal.int (if b then 1 else 0)

def or3 : Option Bool → Option Bool → Option Bool
  | some true, _ => some true
  | _, some true => some true
  | none, _ => none
  | _, none => none
  | _, _ => some false

def and3 : Option Bool → Option Bool → Option Bool
  | some false, _ => some false
  | _, some false => some false
  | none, _ => none
  | _, none => none
  | _, _ => some true

/-- SQLite `=`: NULL propagates; values of distinct storage classes
(INTEGER vs TEXT) are never equal. -/
def sqlEqVal : SqlVal → SqlVal → SqlVal
  | SqlVal.null, _ => SqlVal.null
  | _, SqlVal.null => SqlVal.null
  | SqlVal.int x, SqlVal.int y => SqlVal.int (if x = y then 1 else 0)
  | SqlVal.text x, SqlVal.text y => SqlVal.int (if x = y then 1 else 0)
  | _, _ => SqlVal.int 0

/-- Column lookup in a row; column names are case-insensitive. -/
def colVal (r : Row) (c : String) : SqlVal :=
  if isKw c "ID" then SqlVal.int r.id else SqlVal.text r.name

def evalE : SqlExpr → Row → SqlVal
  | SqlExpr.lit v, _ => v
  | SqlExpr.col c, r => colVal r c
  | SqlExpr.eqE a b, r => sqlEqVal (evalE a r) (evalE b r)
  | SqlExpr.andE a b, r => ofBool3 (and3 (toBool3 (evalE a r)) (toBool3 (evalE b r)))
  | SqlExpr.orE a b, r => ofBool3 (or3 (toBool3 (evalE a r)) (toBool3 (evalE b r)))

def exprCols : SqlExpr → List String
  | SqlExpr.lit _ => []
  | SqlExpr.col c => [c]
  | SqlExpr.eqE a b => exprCols a ++ exprCols b
  | SqlExpr.andE a b => exprCols a ++ exprCols b
  | SqlExpr.orE a b => exprCols a ++ exprCols b

/-- First identifier that is not a column of `users`, if any: resolved at
prepare time, as SQLite does. -/
def badCol? (e : SqlExpr) : Option String :=
  (exprCols e).find? (fun c => !(isKw c "ID" || isKw c "NAME"))

/-- `SELECT * FROM users WHERE e`: the rows whose WHERE value is true. -/
def selectRows (e : SqlExpr) (rows : List Row) : List Row :=
  rows.filter (fun r => toBool3 (evalE e r) = some true)

/-- `SELECT * <tail>` where `tail` is `FROM users WHERE expr`: parse the
expression, resolve the table, resolve the columns, then filter.  A
SELECT never changes the store. -/
def selectExec (ts : List Tok) (db : DbState) : Except String (List Row × DbState) :=
  match ts with
  | Tok.star :: Tok.ident f :: Tok.ident tbl :: Tok.ident w :: ets =>
    if isKw f "FROM" && isKw w "WHERE" then
      match parseWhere ets with
      | none => .error "syntax error"
      | some e =>
        if isKw tbl "USERS" then
          match db.users with
          | none => .error "no such table: users"
          | some rows =>
            match badCol? e with
            | some c => .error ("no such column: " ++ c)
            | none => .ok (selectRows e rows, db)
        else .error ("no such table: " ++ tbl)
    else .error "syntax error"
  | _ => .error "syntax error"

/-- `CREATE TABLE IF NOT EXISTS users (...)`: creates the empty table
when absent, otherwise leaves the store unchanged.  The column list is
the fixed one from `init_db` and is not interpreted further. -/
def createExec (ts : List Tok) (db : DbState) : Except String (List Row × DbState) :=
  match ts with
  | Tok.ident t :: Tok.ident i :: Tok.ident n :: Tok.ident e :: Tok.ident tbl :: _ =>
    if isKw t "TABLE" && isKw i "IF" && isKw n "NOT" && isKw e "EXISTS"
        && isKw tbl "USERS" then
      match db.users with
      | none => .ok ([], ⟨some []⟩)
      | some _ => .ok ([], db)
    else .error "syntax error"
  | _ => .error "syntax error"

/-- `DELETE FROM users`: clears the table. -/
def deleteExec (ts : List Tok) (db : DbState) : Except String (List Row × DbState) :=
  match ts with
  | [Tok.ident f, Tok.ident tbl] =>
    if isKw f "FROM" && isKw tbl "USERS" then
      match db.users with
      | none => .error "no such table: users"
      | some _ => .ok ([], ⟨some []⟩)
    else .error "syntax error"
  | _ => .error "syntax error"

/-- `DROP TABLE users`: removes the table. -/
def dropExec (ts : List Tok) (db : DbState) : Except String (List Row × DbState) :=
  match ts with
  | [Tok.ident t, Tok.ident tbl] =>
    if isKw t "TABLE" && isKw tbl "USERS" then
      match db.users with
      | none => .error "no such table: users"
      | some _ => .ok ([], ⟨none⟩)
    else .error "syntax error"
  | _ => .error "syntax error"

/-- Dispatch one statement on its leading keyword. -/
def stmtExec (ts : List Tok) (db : DbState) : Except String (List Row × DbState) :=
  match ts with
  | Tok.ident k :: rest =>
    if isKw k "SELECT" then selectExec rest db
    else if isKw k "CREATE" then createExec rest db
    else if isKw k "DELETE" then deleteExec rest db
    else if isKw k "DROP" then dropExec rest db
    else .error "syntax error"
  | _ => .error "syntax error"

/-- `Connection.execute(sql)` of Python's `sqlite3`: tokenize, refuse a
non-empty tail after the first `;` before executing anything (Python's
multi-statement guard), then run the single statement. -/
def executeSql (sql : String) (db : DbState) : Except String (List Row × DbState) := do
  let ts ← tokenize sql
  let pre := ts.takeWhile (fun t => !(t = Tok.semi))
  let post := (ts.dropWhile (fun t => !(t = Tok.semi))).drop 1
  if post.isEmpty then stmtExec pre db
  else .error "You can only execute one statement at a time."

/-- SQLite rowid assignment for `INTEGER PRIMARY KEY`: one more than the
largest existing id (1 for an empty table). -/
def nextId (rows : List Row) : Int :=
  (rows.foldl (fun a r => max a r.id) 0) + 1

/-- One row of `executemany("INSERT INTO users(name) VALUES(?)", ...)`:
appends a row with an auto-assigned id. -/
def insertName (db : DbState) (n : String) : Except String DbState :=
  match db.users with
  | none => .error "no such table: users"
  | some rows => .ok ⟨some (rows ++ [⟨nextId rows, n⟩])⟩

def executemanyInsertUsersName (db : DbState) (names : List String) :
    Except String DbState :=
  names.foldlM insertName db

/-- `Connection.commit()`: the model is autocommit-free, so committing
does not change the observable store. -/
def commit (db : DbState) : DbState := db

/-- `init_db` from `src/app/app.py` lines 7-12: ensure the table exists,
clear it, insert the two fixed records, commit. -/
def init_db (db : DbState) : Except String DbState := do
  let (_, db1) ← executeSql
    "CREATE TABLE IF NOT EXISTS users (id INTEGER PRIMARY KEY, name TEXT)" db
  let (_, db2) ← executeSql "DELETE FROM users" db1
  let db3 ← executemanyInsertUsersName db2 ["Alice", "Bob"]
  .ok (commit db3)

/-- The store after `init_db`: exactly Alice (id 1) and Bob (id 2). -/
def seededDb : DbState := ⟨some [⟨1, "Alice"⟩, ⟨2, "Bob"⟩]⟩

/-- Process state seen by a handler: the shared in-memory store plus the
number of connections opened so far through the accessor. -/
structure World where
  db : DbState
  conns : Nat
deriving DecidableEq

/-- Modelled from the spec: `app/db.py` (`get_db`) is imported by the
application but absent from the source tree.  Per the spec it returns a
new connection to the ephemeral in-memory relational store on every call,
with rows addressable by column name and no pooling.  The testable
properties of the spec require the seeded data to be visible to later
requests, so the connection is modelled as access to the shared store;
each call opens one fresh connection, counted in `conns`. -/
def get_db (w : World) : World :=
  { w with conns := w.conns + 1 }

/-- HTTP responses of the three handlers.  `okStatus` is the 200 JSON
body with the single "status" to "ok" pair; `okRows` is a 200 JSON array
of objects given as column-name/value pairs; `badRequest msg` is the 400
JSON body with the single "error" to `msg` pair. -/
inductive Resp where
  | okRows (rows : List (List (String × SqlVal)))
  | okHtml (body : String)
  | okStatus
  | badRequest (msg : String)
deriving DecidableEq

def statusOf : Resp → Nat
  | Resp.badRequest _ => 400
  | _ => 200

/-- `dict(r)` on a `sqlite3.Row` of the `users` table. -/
def rowToDict (r : Row) : List (String × SqlVal) :=
  [("id", SqlVal.int r.id), ("name", SqlVal.text r.name)]

/-- `request.args.get(k, d)`: first value of the query parameter, or the
default. -/
def getArg (args : List (String × String)) (k d : String) : String :=
  (args.lookup k).getD d

/-- `health` handler: fixed 200 JSON body, no store access. -/
def health_handler (w : World) : Resp × World :=
  (Resp.okStatus, w)

/-- `hello` handler: interpolates the raw `name` parameter into the HTML
fragment without escaping; no store access. -/
def hello_handler (args : List (String × String)) (w : World) : Resp × World :=
  let name := getArg args "name" "world"
  (Resp.okHtml ("<h1>Hello " ++ name ++ "</h1>"), w)

/-- The f-string `SELECT * FROM users WHERE id = {uid}`. -/
def userSql (uid : String) : String :=
  "SELECT * FROM users WHERE id = " ++ uid

/-- `user` handler: raw `id` parameter interpolated into the query; any
execution error is caught and turned into a 400 response. -/
def user_handler (args : List (String × String)) (w : World) : Resp × World :=
  let uid := getArg args "id" "1"
  let w1 := get_db w
  match executeSql (userSql uid) w1.db with
  | .ok (rows, db2) => (Resp.okRows (rows.map rowToDict), { w1 with db := db2 })
  | .error e => (Resp.badRequest e, w1)

/-! ## The two source copies as Python line sequences

For the duplicate-copy question the two files are embedded as their
sequences of logical source lines: leading indentation width plus the
line's code text.  Blank lines and comments are discarded — Python's
tokenizer emits nothing for them and they never affect the block
structure — so the three French comment-only lines of
`src/SAST/app/app.py` are dropped and the trailing comment of its
`hello` return line is stripped; `src/app/app.py` contains no comments.
A minimal model of Python's block rules decides whether a module is
syntactically loadable: after a line ending in a colon the next line
must be strictly more indented; otherwise a line must sit at the current
indentation or dedent to an enclosing level. -/

structure PyLine where
  indent : Nat
  text : String
deriving DecidableEq

def endsColon (s : String) : Bool := s.data.getLast? = some ':'

/-- Dedent to an enclosing indentation level, or fail. -/
def dedentTo : List Nat → Nat → Option (List Nat)
  | [], _ => none
  | top :: rest, i =>
    if top = i then some (top :: rest)
    else if i < top then dedentTo rest i
    else none

def pyValidAux : List Nat → Bool → List PyLine → Bool
  | _, expects, [] => !expects
  | stack, expects, l :: rest =>
    match stack with
    | [] => false
    | top :: _ =>
      if expects then
        if top < l.indent then pyValidAux (l.indent :: stack) (endsColon l.text) rest
        else false
      else if l.indent = top then
        pyValidAux stack (endsColon l.text) rest
      else if l.indent < top then
        match dedentTo stack l.indent with
        | some stack2 => pyValidAux stack2 (endsColon l.text) rest
        | none => false
      else false

/-- A module's line sequence obeys Python's indentation block rules; a
module violating them raises IndentationError at import and serves no
endpoint. -/
def pyBlocksValid (ls : List PyLine) : Bool := pyValidAux [0] false ls

/-- The logical lines of `src/app/app.py`. -/
def appPy : List PyLine :=
  [ ⟨0, "from flask import Flask, request, jsonify"⟩,
    ⟨0, "from markupsafe import Markup"⟩,
    ⟨0, "from .db import get_db"⟩,
    ⟨0, "app = Flask(__name__)"⟩,
    ⟨0, "def init_db():"⟩,
    ⟨4, "db = get_db()"⟩,
    ⟨4, "db.execute(\"CREATE TABLE IF NOT EXISTS users (id INTEGER PRIMARY KEY, name TEXT)\")"⟩,
    ⟨4, "db.execute(\"DELETE FROM users\")"⟩,
    ⟨4, "db.executemany(\"INSERT INTO users(name) VALUES(?)\", [(\"Alice\",), (\"Bob\",)])"⟩,
    ⟨4, "db.commit()"⟩,
    ⟨0, "@app.before_first_request"⟩,
    ⟨0, "def _init():"⟩,
    ⟨4, "init_db()"⟩,
    ⟨0, "@app.get(\"/health\")"⟩,
    ⟨0, "def health():"⟩,
    ⟨4, "return \x7b\"status\": \"ok\"\x7d"⟩,
    ⟨0, "@app.get(\"/hello\")"⟩,
    ⟨0, "def hello():"⟩,
    ⟨4, "name = request.args.get(\"name\", \"world\")"⟩,
    ⟨4, "return f\"<h1>Hello {name}</h1>\""⟩,
    ⟨0, "@app.get(\"/user\")"⟩,
    ⟨0, "def user():"⟩,
    ⟨4, "uid = request.args.get(\"id\", \"1\")"⟩,
    ⟨4, "db = get_db()"⟩,
    ⟨4, "try:"⟩,
    ⟨12, "rows = db.execute(f\"SELECT * FROM users WHERE id = {uid}\").fetchall()"⟩,
    ⟨12, "return jsonify([dict(r) for r in rows])"⟩,
    ⟨4, "except Exception as e:"⟩,
    ⟨8, "return jsonify(\x7b\"error\": str(e)\x7d), 400"⟩,
    ⟨0, "if __name__ == \"__main__\":"⟩,
    ⟨4, "app.run(host=\"0.0.0.0\", port=5000)"⟩ ]

/-- The logical lines of `src/SAST/app/app.py`: the same statements, all
at column 0. -/
def sastAppPy : List PyLine :=
  [ ⟨0, "from flask import Flask, request, jsonify"⟩,
    ⟨0, "from markupsafe import Markup"⟩,
    ⟨0, "from .db import get_db"⟩,
    ⟨0, "app = Flask(__name__)"⟩,
    ⟨0, "def init_db():"⟩,
    ⟨0, "db = get_db()"⟩,
    ⟨0, "db.execute(\"CREATE TABLE IF NOT EXISTS users (id INTEGER PRIMARY KEY, name TEXT)\")"⟩,
    ⟨0, "db.execute(\"DELETE FROM users\")"⟩,
    ⟨0, "db.executemany(\"INSERT INTO users(name) VALUES(?)\", [(\"Alice\",), (\"Bob\",)])"⟩,
    ⟨0, "db.commit()"⟩,
    ⟨0, "@app.before_first_request"⟩,
    ⟨0, "def _init():"⟩,
    ⟨0, "init_db()"⟩,
    ⟨0, "@app.get(\"/health\")"⟩,
    ⟨0, "def health():"⟩,
    ⟨0, "return \x7b\"status\": \"ok\"\x7d"⟩,
    ⟨0, "@app.get(\"/hello\")"⟩,
    ⟨0, "def hello():"⟩,
    ⟨0, "name = request.args.get(\"name\", \"world\")"⟩,
    ⟨0, "return f\"<h1>Hello {name}</h1>\""⟩,
    ⟨0, "@app.get(\"/user\")"⟩,
    ⟨0, "def user():"⟩,
    ⟨0, "uid = request.args.get(\"id\", \"1\")"⟩,
    ⟨0, "db = get_db()"⟩,
    ⟨0, "try:"⟩,
    ⟨0, "rows = db.execute(f\"SELECT * FROM users WHERE id = {uid}\").fetchall()"⟩,
    ⟨0, "return jsonify([dict(r) for r in rows])"⟩,
    ⟨0, "except Exception as e:"⟩,
    ⟨0, "return jsonify(\x7b\"error\": str(e)\x7d), 400"⟩,
    ⟨0, "if __name__ == \"__main__\":"⟩,
    ⟨0, "app.run(host=\"0.0.0.0\", port=5000)"⟩ ]

/-! ## Helper lemmas -/

/-- Tokens of the fixed part of the lookup query. -/
def userSqlToks : List Tok :=
  [Tok.ident "SELECT", Tok.star, Tok.ident "FROM", Tok.ident "users",
   Tok.ident "WHERE", Tok.ident "id", Tok.eq]

/-- Continuation applied by the tokenizer after consuming the fixed part
of the lookup query. -/
def tokWrap (x : Except String (List Tok)) : Except String (List Tok) :=
  Except.bind
    (Except.bind
      (Except.bind
        (Except.bind
          (Except.bind
            (Except.bind
              (Except.bind x
                (fun ts => Except.ok (Tok.eq :: ts)))
              (fun ts => Except.ok (Tok.ident "id" :: ts)))
            (fun ts => Except.ok (Tok.ident "WHERE" :: ts)))
          (fun ts => Except.ok (Tok.ident "users" :: ts)))
        (fun ts => Except.ok (Tok.ident "FROM" :: ts)))
      (fun ts => Except.ok (Tok.star :: ts)))
    (fun ts => Except.ok (Tok.ident "SELECT" :: ts))

theorem tokenize_userSql_raw (uid : String) :
    tokenize (userSql uid) = tokWrap (tokenizeAux (uid.length + 18) uid.data) := rfl

theorem tokWrap_ok (l : List Tok) : tokWrap (.ok l) = .ok (userSqlToks ++ l) := rfl

theorem tokWrap_err (e : String) : tokWrap (.error e) = .error e := rfl

/-- Executing the lookup query: after the fixed tokens, the rest of the
token stream comes from the raw `id` string. -/
theorem executeSql_userSql (uid : String) (db : DbState) (l : List Tok)
    (h : tokenizeAux (uid.length + 18) uid.data = .ok l) :
    executeSql (userSql uid) db =
      if ((l.dropWhile (fun t => !(t = Tok.semi))).drop 1).isEmpty then
        stmtExec (userSqlToks ++ l.takeWhile (fun t => !(t = Tok.semi))) db
      else .error "You can only execute one statement at a time." := by
  unfold executeSql
  rw [tokenize_userSql_raw, h, tokWrap_ok]
  rfl

/-- A SELECT statement leaves the store unchanged. -/
theorem selectExec_frame (ts : List Tok) (db : DbState) (r : List Row) (d2 : DbState)
    (h : selectExec ts db = .ok (r, d2)) : d2 = db := by
  unfold selectExec at h
  split at h
  · split at h
    · split at h
      · cases h
      · split at h
        · split at h
          · cases h
          · split at h
            · cases h
            · injection h with h1
              injection h1 with h2 h3
              exact h3.symm
        · cases h
    · cases h
  · cases h

/-- A statement led by the SELECT keyword dispatches to `selectExec`. -/
theorem stmtExec_select (rest : List Tok) (db : DbState) :
    stmtExec (Tok.ident "SELECT" :: rest) db = selectExec rest db := rfl

/-- A statement whose leading keyword is SELECT leaves the store
unchanged. -/
theorem stmtExec_frame_select (rest : List Tok) (db : DbState)
    (r : List Row) (d2 : DbState)
    (h : stmtExec (Tok.ident "SELECT" :: rest) db = .ok (r, d2)) : d2 = db := by
  rw [stmtExec_select] at h
  exact selectExec_frame rest db r d2 h

/-- Any successful execution of the interpolated lookup query leaves the
store unchanged, for every raw `id` string. -/
theorem executeSql_userSql_frame (uid : String) (db : DbState)
    (rows : List Row) (db2 : DbState)
    (h : executeSql (userSql uid) db = .ok (rows, db2)) : db2 = db := by
  cases htok : tokenizeAux (uid.length + 18) uid.data with
  | error e =>
    rw [show executeSql (userSql uid) db =
        Except.bind (tokenize (userSql uid))
          (fun ts =>
            if ((ts.dropWhile (fun t => !(t = Tok.semi))).drop 1).isEmpty then
              stmtExec (ts.takeWhile (fun t => !(t = Tok.semi))) db
            else .error "You can only execute one statement at a time.")
        from rfl, tokenize_userSql_raw, htok, tokWrap_err] at h
    cases h
  | ok l =>
    rw [executeSql_userSql uid db l htok] at h
    split at h
    · exact stmtExec_frame_select
        (Tok.star :: Tok.ident "FROM" :: Tok.ident "users" :: Tok.ident "WHERE" ::
          Tok.ident "id" :: Tok.eq :: l.takeWhile (fun t => !(t = Tok.semi)))
        db rows db2 h
    · cases h

/-- The lookup handler, written as one case split on the executed
query. -/
theorem user_handler_eq (args : List (String × String)) (w : World) :
    user_handler args w =
      match executeSql (userSql (getArg args "id" "1")) w.db with
      | .ok (rows, db2) => (Resp.okRows (rows.map rowToDict), ⟨db2, w.conns + 1⟩)
      | .error e => (Resp.badRequest e, ⟨w.db, w.conns + 1⟩) := rfl

/-- Whatever the prior state of the store, `init_db` leaves exactly the
two seeded rows. -/
theorem initDb_ok (s : DbState) : init_db s = .ok seededDb := by
  obtain ⟨users⟩ := s
  cases users with
  | none => rfl
  | some rows => rfl

/-! ## Claims -/

/-- C1: for every string value of the query parameter `id` (default
"1"), the lookup handler builds its query text by interpolating the raw
`id` string directly into `SELECT * FROM users WHERE id = `, with no
parameter binding, and on successful execution returns HTTP 200 with a
JSON array holding one object per matching row, mapping column name to
value. -/
theorem user_query_interpolation_and_success
    (args : List (String × String)) (w : World)
    (rows : List Row) (db2 : DbState)
    (hok : executeSql (userSql (getArg args "id" "1")) w.db = .ok (rows, db2)) :
    userSql (getArg args "id" "1") =
      "SELECT * FROM users WHERE id = " ++ getArg args "id" "1" ∧
    user_handler args w = (Resp.okRows (rows.map rowToDict), ⟨db2, w.conns + 1⟩) ∧
    statusOf (user_handler args w).1 = 200 := by
  refine ⟨rfl, ?_, ?_⟩
  · rw [user_handler_eq, hok]
  · rw [user_handler_eq, hok]
    rfl

/-- Witness for C1 at `id=1` on the seeded store. -/
theorem user_query_interpolation_and_success_witness :
    userSql "1" = "SELECT * FROM users WHERE id = 1" ∧
    user_handler [("id", "1")] ⟨seededDb, 0⟩ =
      (Resp.okRows [[("id", SqlVal.int 1), ("name", SqlVal.text "Alice")]],
        ⟨seededDb, 1⟩) ∧
    statusOf (user_handler [("id", "1")] ⟨seededDb, 0⟩).1 = 200 :=
  user_query_interpolation_and_success [("id", "1")] ⟨seededDb, 0⟩
    [⟨1, "Alice"⟩] seededDb (by rfl)

/-- C2: the greeting handler returns HTTP 200 whose body is exactly
the fragment built by interpolating the raw `name` parameter (default
"world") between the literal pieces, verbatim and unescaped: any HTML or
script content in `name` appears character for character. -/
theorem hello_unescaped_body (args : List (String × String)) (w : World) :
    hello_handler args w =
      (Resp.okHtml ("<h1>Hello " ++ getArg args "name" "world" ++ "</h1>"), w) ∧
    statusOf (hello_handler args w).1 = 200 :=
  ⟨rfl, rfl⟩

/-- C3: after the seed routine has run, `GET /user?id=1 OR 1=1` returns
HTTP 200 with a JSON array holding all seeded rows — Alice and Bob — not
just the row with id 1. -/
theorem user_injection_returns_all_rows (s : DbState) (c : Nat) :
    init_db s = .ok seededDb ∧
    user_handler [("id", "1 OR 1=1")] ⟨seededDb, c⟩ =
      (Resp.okRows [[("id", SqlVal.int 1), ("name", SqlVal.text "Alice")],
                    [("id", SqlVal.int 2), ("name", SqlVal.text "Bob")]],
        ⟨seededDb, c + 1⟩) ∧
    statusOf (user_handler [("id", "1 OR 1=1")] ⟨seededDb, c⟩).1 = 200 :=
  ⟨initDb_ok s, rfl, rfl⟩

/-- C4: the lookup handler returns HTTP 400 with the exception's string
in the error body exactly when query execution fails, and HTTP 200
otherwise; being a total function of the model, it lets no exception
escape, and no status other than 400 or 200 occurs. -/
theorem user_error_handling (args : List (String × String)) (w : World) :
    (∀ e, executeSql (userSql (getArg args "id" "1")) w.db = .error e →
      user_handler args w = (Resp.badRequest e, ⟨w.db, w.conns + 1⟩) ∧
      statusOf (user_handler args w).1 = 400) ∧
    (∀ rows db2,
      executeSql (userSql (getArg args "id" "1")) w.db = .ok (rows, db2) →
      user_handler args w =
        (Resp.okRows (rows.map rowToDict), ⟨db2, w.conns + 1⟩) ∧
      statusOf (user_handler args w).1 = 200) ∧
    (statusOf (user_handler args w).1 = 400 ∨
     statusOf (user_handler args w).1 = 200) := by
  refine ⟨?_, ?_, ?_⟩
  · intro e he
    rw [user_handler_eq, he]
    exact ⟨rfl, rfl⟩
  · intro rows db2 hok
    rw [user_handler_eq, hok]
    exact ⟨rfl, rfl⟩
  · rw [user_handler_eq]
    cases hex : executeSql (userSql (getArg args "id" "1")) w.db with
    | ok p =>
      obtain ⟨r, d⟩ := p
      right
      rfl
    | error e =>
      left
      rfl

/-- Witness for C4: `id=abc` makes the query fail with `no such column`,
yielding HTTP 400 with the message in the error body. -/
theorem user_error_handling_witness :
    user_handler [("id", "abc")] ⟨seededDb, 0⟩ =
      (Resp.badRequest "no such column: abc", ⟨seededDb, 1⟩) ∧
    statusOf (user_handler [("id", "abc")] ⟨seededDb, 0⟩).1 = 400 :=
  (user_error_handling [("id", "abc")] ⟨seededDb, 0⟩).1
    "no such column: abc" (by rfl)

/-- C5: from every prior store state — table absent, empty, or holding
any rows — `init_db` leaves the `users` table existing with exactly the
two committed rows Alice and Bob and no others; in particular running it
twice leaves the same state as running it once. -/
theorem init_db_idempotent_reset (s : DbState) :
    init_db s = .ok seededDb ∧
    init_db seededDb = .ok seededDb ∧
    seededDb.users = some [⟨1, "Alice"⟩, ⟨2, "Bob"⟩] :=
  ⟨initDb_ok s, initDb_ok seededDb, rfl⟩

/-- C6: on the seeded store, `GET /user?id=1` returns HTTP 200 with a
JSON array holding exactly the one Alice object, and `GET /user` with no
`id` parameter takes the default "1" and returns the same result. -/
theorem user_default_and_id1 (c : Nat) :
    user_handler [("id", "1")] ⟨seededDb, c⟩ =
      (Resp.okRows [[("id", SqlVal.int 1), ("name", SqlVal.text "Alice")]],
        ⟨seededDb, c + 1⟩) ∧
    user_handler [] ⟨seededDb, c⟩ = user_handler [("id", "1")] ⟨seededDb, c⟩ ∧
    statusOf (user_handler [] ⟨seededDb, c⟩).1 = 200 :=
  ⟨rfl, rfl, rfl⟩

/-- C7 counterexample: the health and greeting handlers serve a request
without opening any connection through the accessor — the connection
count is unchanged — contradicting the claim that each of the three
handlers opens its own new connection. -/
theorem health_hello_open_no_connection :
    (health_handler ⟨seededDb, 0⟩).2.conns = 0 ∧
    (hello_handler [] ⟨seededDb, 0⟩).2.conns = 0 :=
  ⟨rfl, rfl⟩

/-- C7 amended: only the lookup handler opens a connection — exactly one
fresh connection per request through `get_db`, with no pooling or reuse;
the health and greeting handlers never call the accessor. -/
theorem only_user_handler_opens_connection
    (args : List (String × String)) (w : World) :
    (user_handler args w).2.conns = w.conns + 1 ∧
    (health_handler w).2.conns = w.conns ∧
    (hello_handler args w).2.conns = w.conns := by
  refine ⟨?_, rfl, rfl⟩
  rw [user_handler_eq]
  cases hex : executeSql (userSql (getArg args "id" "1")) w.db with
  | ok p =>
    obtain ⟨r, d⟩ := p
    rfl
  | error e => rfl

/-- C8 counterexample: `src/app/app.py` satisfies Python's block
indentation rules, but `src/SAST/app/app.py` does not — every suite body
sits at column 0 — so the duplicate raises IndentationError at import,
serves no endpoint, and cannot be behaviourally equivalent to the
working copy. -/
theorem sast_copy_fails_to_import :
    pyBlocksValid appPy = true ∧ pyBlocksValid sastAppPy = false := by
  decide

/-- C8 amended: the two copies carry identical sequences of code-line
texts once comments and formatting are ignored — they differ only in
comments and indentation — but the difference is not behaviourally
neutral: the indentation of `src/SAST/app/app.py` violates Python's
block rules, so that copy fails to import and has no behaviour to
compare, while `src/app/app.py` is well-formed. -/
theorem copies_identical_code_but_sast_unloadable :
    appPy.map PyLine.text = sastAppPy.map PyLine.text ∧
    pyBlocksValid appPy = true ∧
    pyBlocksValid sastAppPy = false :=
  ⟨by decide, by decide, by decide⟩

/-- C9: a `GET /user` request never changes the store, whatever the raw
`id` string — the executed statement is a single SELECT — and a payload
that adds a second statement after `;` is rejected with HTTP 400 before
anything executes. -/
theorem user_handler_preserves_store
    (args : List (String × String)) (w : World) :
    (user_handler args w).2.db = w.db ∧
    (∀ ts rest,
      tokenize (userSql (getArg args "id" "1")) = .ok ts →
      ts.dropWhile (fun t => !(t = Tok.semi)) = Tok.semi :: rest →
      rest ≠ [] →
      user_handler args w =
        (Resp.badRequest "You can only execute one statement at a time.",
          ⟨w.db, w.conns + 1⟩) ∧
      statusOf (user_handler args w).1 = 400) := by
  constructor
  · rw [user_handler_eq]
    cases hex : executeSql (userSql (getArg args "id" "1")) w.db with
    | ok p =>
      obtain ⟨r, d⟩ := p
      exact executeSql_userSql_frame _ _ r d hex
    | error e => rfl
  · intro ts rest htok hdrop hne
    cases h2 : tokenizeAux ((getArg args "id" "1").length + 18)
        (getArg args "id" "1").data with
    | error e =>
      rw [tokenize_userSql_raw, h2, tokWrap_err] at htok
      cases htok
    | ok l =>
      rw [tokenize_userSql_raw, h2, tokWrap_ok] at htok
      injection htok with h3
      subst h3
      have hdrop2 : l.dropWhile (fun t => !(t = Tok.semi)) = Tok.semi :: rest := hdrop
      cases rest with
      | nil => exact absurd rfl hne
      | cons a as =>
        have hexec : executeSql (userSql (getArg args "id" "1")) w.db =
            .error "You can only execute one statement at a time." := by
          rw [executeSql_userSql (getArg args "id" "1") w.db l h2, hdrop2]
          rfl
        rw [user_handler_eq, hexec]
        exact ⟨rfl, rfl⟩

/-- Witness for C9: the classic stacked-statement payload
`1; DROP TABLE users` is rejected with HTTP 400 and the store keeps its
seeded contents. -/
theorem user_handler_preserves_store_witness :
    user_handler [("id", "1; DROP TABLE users")] ⟨seededDb, 0⟩ =
      (Resp.badRequest "You can only execute one statement at a time.",
        ⟨seededDb, 1⟩) ∧
    statusOf (user_handler [("id", "1; DROP TABLE users")] ⟨seededDb, 0⟩).1 = 400 :=
  (user_handler_preserves_store [("id", "1; DROP TABLE users")] ⟨seededDb, 0⟩).2
    (userSqlToks ++
      [Tok.int 1, Tok.semi, Tok.ident "DROP", Tok.ident "TABLE", Tok.ident "users"])
    [Tok.ident "DROP", Tok.ident "TABLE", Tok.ident "users"]
    (by rfl) (by rfl) (by decide)

/-- C10: the greeting handler neither reads nor writes the store — the
world it returns is the one it received, and any two requests with the
same `name` value receive identical responses regardless of store state
or connection history. -/
theorem hello_independent_of_store
    (args1 args2 : List (String × String)) (w1 w2 : World)
    (hname : getArg args1 "name" "world" = getArg args2 "name" "world") :
    (hello_handler args1 w1).1 = (hello_handler args2 w2).1 ∧
    (hello_handler args1 w1).2 = w1 := by
  constructor
  · show Resp.okHtml _ = Resp.okHtml _
    rw [hname]
  · rfl

/-- Witness for C10: the same `name` on a seeded store and on a store
with no table at all receives the same body, and the store is
untouched. -/
theorem hello_independent_of_store_witness :
    (hello_handler [("name", "<script>")] ⟨seededDb, 3⟩).1 =
      (hello_handler [("name", "<script>"), ("x", "y")] ⟨⟨none⟩, 0⟩).1 ∧
    (hello_handler [("name", "<script>")] ⟨seededDb, 3⟩).2 = ⟨seededDb, 3⟩ :=
  hello_independent_of_store [("name", "<script>")]
    [("name", "<script>"), ("x", "y")] ⟨seededDb, 3⟩ ⟨⟨none⟩, 0⟩ (by rfl)

end SASTApp


